import Mathlib

/-!
Shallow embedding of `src/src/data_mesh_util/DataMeshConsumer.py`.

The class `DataMeshConsumer` is a broker that runs in the consumer account
and talks to a central data-mesh account. The only source file of the
repository defines four operations relevant to the claims:
`request_access_to_product`, `finalize_subscription`, `list_product_access`
and `delete_subscription`. Their collaborators (`SubscriberTracker`,
`ApiAutomator`, `utils`) are not under `src/`; they are modelled from the
spec where their behaviour decides a claim, and each such definition is
marked with a doc comment starting with `Modelled from the spec:`.

Remote calls are modelled as an explicit trace of `Effect` values paired
with the returned value (Python exceptions become `Except.error`). The
environment `MeshEnv` supplies the externally observable state: the
subscription store, table visibility, and the state of each resource share.
-/

namespace DataMesh

/-- Subscription lifecycle status, from the spec data model (section 3). -/
inductive Status where
  | REQUESTED
  | ACTIVE
  | IMPORTED
  | DELETED
deriving DecidableEq, Repr

/-- State of a resource share in the resource-sharing service: an invitation
still pending acceptance, or already active. `none` in `MeshEnv.shareState`
means the share cannot be located. -/
inductive ShareState where
  | pending
  | active
deriving DecidableEq, Repr

/-- Share descriptor, the values of the `ramShares` mapping: per the spec a
record of an arn and a state string; the source reads only `v.get('arn')`
(line 141). -/
structure ShareDesc where
  arn : String
  state : String
deriving DecidableEq, Repr

/-- Subscription record as stored by the tracker, from the spec data model
(section 3) and the fields the source reads (`DATABASE_NAME`,
`OWNER_PRINCIPAL`, `SUBSCRIBER_PRINCIPAL`, `RAM_SHARES`, status). -/
structure Subscription where
  subscriptionId : String
  ownerPrincipal : String
  subscriberPrincipal : String
  databaseName : String
  tables : List String
  requestedGrants : List String
  status : Status
  ramShares : List (String × ShareDesc)
deriving DecidableEq, Repr

/-- One remote call made by the broker, recorded in order of execution. -/
inductive Effect where
  | readSubscription (subscription_id : String)
  | describeTable (database_name table_name : String)
  | getOrCreateDatabase (database_name database_desc source_account : String)
  | acceptShares (share_list : List String)
  | markImported (subscription_id : String)
  | createSubscriptionRequest (owner_account_id : String) (database_name : String)
      (tables : List String) (principal : String) (request_grants : List String)
      (suppress_object_validation : Bool)
  | leaveRamShares (principal : String) (ram_shares : List (String × ShareDesc))
  | softDeleteSubscription (subscription_id : String) (reason : String)
  | logInfo (message : String)
  | logWarning (message : String)
  | stdout (message : String)
deriving DecidableEq, Repr

/-- An effect is mutating when it writes to the store, the catalog or the
resource-sharing service; reads, log output and stdout are not mutating. -/
def Effect.isMutating : Effect → Bool
  | .getOrCreateDatabase _ _ _ => true
  | .acceptShares _ => true
  | .markImported _ => true
  | .createSubscriptionRequest _ _ _ _ _ _ => true
  | .leaveRamShares _ _ => true
  | .softDeleteSubscription _ _ => true
  | _ => false

/-- Recognizes the store write that creates a subscription record. -/
def Effect.isCreateSubscriptionRequest : Effect → Bool
  | .createSubscriptionRequest _ _ _ _ _ _ => true
  | _ => false

/-- Recognizes a table visibility check against the catalog. -/
def Effect.isDescribeTable : Effect → Bool
  | .describeTable _ _ => true
  | _ => false

/-- Errors raised by the broker or its collaborators. `PermissionDenied`
carries the message of the Python `Exception` raised at source line 189;
`NotFound` and `ObjectNotVisible` are the collaborator errors named by the
spec error taxonomy (section 7). `PreconditionFailed` is named by the spec
but, as proved below, never raised by the source. -/
inductive MeshError where
  | NotFound
  | ObjectNotVisible (database_name table_name : String)
  | PermissionDenied (message : String)
  | PreconditionFailed
deriving DecidableEq, Repr

/-- The broker state fixed at construction: the mesh account id passed to
`__init__` and the consumer account id resolved from the broker session via
`sts.get_caller_identity` (source lines 42, 55-56). -/
structure DataMeshConsumer where
  data_mesh_account_id : String
  current_account : String
deriving DecidableEq, Repr

/-- External state visible to the broker: the subscription store, catalog
visibility, the resource-sharing service, and the id the store would assign
to a newly created record. -/
structure MeshEnv where
  getSubscription : String → Option Subscription
  visibleTables : String → String → Bool
  shareState : String → Option ShareState
  allSubscriptions : List Subscription
  freshId : String

/-- Result of accepting a batch of resource shares, partitioned into the
three disjoint outcome sets. -/
structure AcceptSharesResult where
  accepted : List String
  active : List String
  not_found : List String
deriving DecidableEq, Repr

/-- Modelled from the spec: `ApiAutomator.accept_lf_resource_shares` is not
under `src/`; per spec section 6, `AcceptShares(shareArns) -> (accepted,
alreadyActive, notFound)` partitions the given arns into those transitioned
from pending to active by this call, those found already active, and those
that could not be located. -/
def accept_lf_resource_shares (env : MeshEnv) (share_list : List String) :
    AcceptSharesResult :=
  { accepted := share_list.filter fun s => decide (env.shareState s = some ShareState.pending)
    active := share_list.filter fun s => decide (env.shareState s = some ShareState.active)
    not_found := share_list.filter fun s => decide (env.shareState s = none) }

/-- Modelled from the spec: `ApiAutomator.describe_table` is not under
`src/`; per spec sections 4.2 and 7, the visibility check on an invisible
table surfaces as an `ObjectNotVisible` error and a visible table yields a
descriptor (modelled as `Unit`). -/
def describe_table (env : MeshEnv) (database_name table_name : String) :
    Except MeshError Unit :=
  if env.visibleTables database_name table_name then Except.ok ()
  else Except.error (MeshError.ObjectNotVisible database_name table_name)

/-- Modelled from the spec: `SubscriberTracker.create_subscription_request`
is not under `src/`; per spec sections 4.1 and 4.2 it creates exactly one
record with a fresh id, status `REQUESTED`, `subscriberPrincipal` equal to
the principal argument, and `ramShares` empty until approval. -/
def create_subscription_request (env : MeshEnv) (owner_account_id : String)
    (database_name : String) (tables : List String) (principal : String)
    (request_grants : List String) : Subscription :=
  { subscriptionId := env.freshId
    ownerPrincipal := owner_account_id
    subscriberPrincipal := principal
    databaseName := database_name
    tables := tables
    requestedGrants := request_grants
    status := Status.REQUESTED
    ramShares := [] }

/-- Modelled from the spec: `SubscriberTracker.list_subscriptions` is not
under `src/`; per spec sections 4.1 and 4.3 it returns exactly the stored
subscriptions whose `subscriberPrincipal` matches the given principal and
whose status matches the given status. -/
def list_subscriptions (env : MeshEnv) (principal_id : String)
    (request_status : Status) : List Subscription :=
  env.allSubscriptions.filter fun s =>
    decide (s.subscriberPrincipal = principal_id ∧ s.status = request_status)

/-- Embedding of `DataMeshConsumer.request_access_to_product` source lines
110-111: the visibility loop `for t in table_list:
self._mesh_automator.describe_table(...)`, which stops at the first table
whose describe fails and records one describe effect per call made. -/
def validate_tables (env : MeshEnv) (database_name : String) :
    List String → List Effect × Except MeshError Unit
  | [] => ([], Except.ok ())
  | t :: rest =>
    match describe_table env database_name t with
    | Except.ok _ =>
      let r := validate_tables env database_name rest
      (Effect.describeTable database_name t :: r.1, r.2)
    | Except.error e => ([Effect.describeTable database_name t], Except.error e)

/-- Embedding of `DataMeshConsumer.request_access_to_product` (source lines
90-120): normalize the arguments (`utils.ensure_list` is the identity on a
list argument), print a message when the table list is empty, describe every
table through the mesh read-only automator, then create the subscription
request with `principal = self._current_account.get('Account')` and
`suppress_object_validation=True`. -/
def request_access_to_product (c : DataMeshConsumer) (env : MeshEnv)
    (owner_account_id : String) (database_name : String)
    (tables : List String) (request_permissions : List String) :
    List Effect × Except MeshError Subscription :=
  let table_list := tables
  let perm_list := request_permissions
  let msg_effects : List Effect :=
    if table_list = [] then [Effect.stdout "Creating Database level Access Request"] else []
  let check := validate_tables env database_name table_list
  match check.2 with
  | Except.error e => (msg_effects ++ check.1, Except.error e)
  | Except.ok _ =>
    (msg_effects ++ check.1 ++
      [Effect.createSubscriptionRequest owner_account_id database_name table_list
        c.current_account perm_list true],
     Except.ok (create_subscription_request env owner_account_id database_name
        table_list c.current_account perm_list))

/-- Counts of the reconciliation outcome sets, the record the spec (section
6) says `Finalize` returns. The source function is annotated `-> None` and
has no return statement, so the embedded return value below is always
`none : Option FinalizeCounts`. -/
structure FinalizeCounts where
  accepted : Nat
  alreadyActive : Nat
  unresolved : Nat
deriving DecidableEq, Repr

/-- The reconciliation counts as the spec describes them, written from the
spec words for comparison with the embedded source: the lengths of the three
outcome sets of accepting the arn entries of the record. -/
def finalize_counts_spec (env : MeshEnv) (subscription : Subscription) :
    FinalizeCounts :=
  let r := accept_lf_resource_shares env
    (subscription.ramShares.map fun kv => kv.2.arn)
  { accepted := r.accepted.length
    alreadyActive := r.active.length
    unresolved := r.not_found.length }

/-- The three conditional log statements of `finalize_subscription` (source
lines 147-156): each outcome set is reported only when nonempty. -/
def finalize_logs (r : AcceptSharesResult) : List Effect :=
  (if r.accepted.length > 0 then
    [Effect.logInfo ("Accepted " ++ toString r.accepted.length ++
      " RAM Shares: " ++ toString r.accepted)]
  else []) ++
  (if r.active.length > 0 then
    [Effect.logInfo (toString r.active.length ++ " RAM Shares already in Active state")]
  else []) ++
  (if r.not_found.length > 0 then
    [Effect.logWarning ("Unable to resolve " ++ toString r.not_found.length ++
      " RAM Shares: " ++ toString r.not_found)]
  else [])

/-- Body of `DataMeshConsumer.finalize_subscription` after the record fetch
(source lines 130-162): create the shared database reference, collect the
arn of every `ramShares` entry, accept the shares, log the nonzero outcome
counts, mark the subscription imported, log completion, return `None`. The
record status is never read. -/
def finalize_body (c : DataMeshConsumer) (env : MeshEnv) (subscription_id : String)
    (subscription : Subscription) :
    List Effect × Except MeshError (Option FinalizeCounts) :=
  let data_mesh_database_name := subscription.databaseName
  let shares := subscription.ramShares.map fun kv => kv.2.arn
  let r := accept_lf_resource_shares env shares
  ([Effect.getOrCreateDatabase data_mesh_database_name
      ("Database to contain objects from Producer Database " ++
        subscription.ownerPrincipal ++ "." ++ subscription.databaseName)
      c.data_mesh_account_id,
    Effect.acceptShares shares] ++
   finalize_logs r ++
   [Effect.markImported subscription_id,
    Effect.logInfo "Subscription Import Complete"],
   Except.ok none)

/-- Embedding of `DataMeshConsumer.finalize_subscription` (source lines
122-162): fetch the record from the tracker (`NotFound` when absent, per the
spec store contract) and run the body. -/
def finalize_subscription (c : DataMeshConsumer) (env : MeshEnv)
    (subscription_id : String) :
    List Effect × Except MeshError (Option FinalizeCounts) :=
  match env.getSubscription subscription_id with
  | none => ([Effect.readSubscription subscription_id], Except.error MeshError.NotFound)
  | some subscription =>
    let r := finalize_body c env subscription_id subscription
    (Effect.readSubscription subscription_id :: r.1, r.2)

/-- Embedding of `DataMeshConsumer.list_product_access` (source lines
170-176): resolve the caller account from the broker session (the same
session whose identity was cached at construction) and list subscriptions
for that principal with status `ACTIVE`. -/
def list_product_access (c : DataMeshConsumer) (env : MeshEnv) :
    List Subscription :=
  let me := c.current_account
  list_subscriptions env me Status.ACTIVE

/-- Embedding of `DataMeshConsumer.delete_subscription` (source lines
178-195): fetch the record, raise when the subscriber principal differs from
the calling account, otherwise leave the ram shares and soft delete the
record. -/
def delete_subscription (c : DataMeshConsumer) (env : MeshEnv)
    (subscription_id : String) (reason : String) :
    List Effect × Except MeshError Unit :=
  match env.getSubscription subscription_id with
  | none => ([Effect.readSubscription subscription_id], Except.error MeshError.NotFound)
  | some subscription =>
    if subscription.subscriberPrincipal ≠ c.current_account then
      ([Effect.readSubscription subscription_id],
       Except.error (MeshError.PermissionDenied
         "Cannot delete permissions which you do not own"))
    else
      ([Effect.readSubscription subscription_id,
        Effect.leaveRamShares subscription.subscriberPrincipal subscription.ramShares,
        Effect.softDeleteSubscription subscription_id reason],
       Except.ok ())

/-! Concrete instances used by the witnesses and counterexamples, following
the end-to-end scenario of spec section 8: owner `111111111111`, consumer
`222222222222`, database `sales` with table `orders`, one share. -/

/-- A subscription still in `REQUESTED` status that nevertheless carries one
ram share whose invitation is pending. -/
def sub0 : Subscription :=
  { subscriptionId := "S1"
    ownerPrincipal := "111111111111"
    subscriberPrincipal := "222222222222"
    databaseName := "sales"
    tables := ["orders"]
    requestedGrants := ["SELECT"]
    status := Status.REQUESTED
    ramShares := [("share1", { arn := "arn1", state := "PENDING" })] }

/-- Broker for the consumer account `222222222222` against mesh account
`333333333333`. -/
def c0 : DataMeshConsumer :=
  { data_mesh_account_id := "333333333333", current_account := "222222222222" }

/-- Broker whose session resolves to an account that is not the subscriber
principal of `sub0`. -/
def c1 : DataMeshConsumer :=
  { data_mesh_account_id := "333333333333", current_account := "999999999999" }

/-- Environment holding `sub0` under id `S1`, with only `sales.orders`
visible and share `arn1` pending acceptance. -/
def env0 : MeshEnv :=
  { getSubscription := fun sid => if sid = "S1" then some sub0 else none
    visibleTables := fun db t => decide (db = "sales" ∧ t = "orders")
    shareState := fun arn => if arn = "arn1" then some ShareState.pending else none
    allSubscriptions := [sub0]
    freshId := "S2" }

/-- An active subscription whose only share can no longer be located (the
owner already revoked it). -/
def sub2 : Subscription :=
  { subscriptionId := "S9"
    ownerPrincipal := "111111111111"
    subscriberPrincipal := "222222222222"
    databaseName := "sales"
    tables := []
    requestedGrants := ["SELECT"]
    status := Status.ACTIVE
    ramShares := [("share1", { arn := "arnX", state := "ACTIVE" })] }

/-- Environment holding `sub2` under id `S9`, in which no share can be
located at all. -/
def env2 : MeshEnv :=
  { getSubscription := fun sid => if sid = "S9" then some sub2 else none
    visibleTables := fun _ _ => false
    shareState := fun _ => none
    allSubscriptions := [sub2]
    freshId := "SX" }

/-! Helper lemmas about the trace of `finalize_subscription` and the
visibility loop of `request_access_to_product`. -/

/-- The conditional log segment contains no mutating effect. -/
theorem finalize_logs_not_mutating (r : AcceptSharesResult) :
    ∀ e ∈ finalize_logs r, e.isMutating = false := by
  unfold finalize_logs
  split <;> split <;> split <;> simp [Effect.isMutating]

/-- The conditional log segment contains no database-creation effect. -/
theorem finalize_logs_not_db (r : AcceptSharesResult) (name desc src : String) :
    Effect.getOrCreateDatabase name desc src ∉ finalize_logs r := by
  unfold finalize_logs
  split <;> split <;> split <;> simp

/-- When some shares were accepted, the acceptance count and set are
reported through an info log. -/
theorem finalize_logs_mem_accepted (r : AcceptSharesResult) (h : r.accepted ≠ []) :
    Effect.logInfo ("Accepted " ++ toString r.accepted.length ++
      " RAM Shares: " ++ toString r.accepted) ∈ finalize_logs r := by
  have hp : r.accepted.length > 0 := List.length_pos.mpr h
  simp [finalize_logs, hp]

/-- When some shares were already active, their count is reported through an
info log. -/
theorem finalize_logs_mem_active (r : AcceptSharesResult) (h : r.active ≠ []) :
    Effect.logInfo (toString r.active.length ++ " RAM Shares already in Active state")
      ∈ finalize_logs r := by
  have hp : r.active.length > 0 := List.length_pos.mpr h
  simp [finalize_logs, hp]

/-- When some shares could not be located, their count and set are reported
through a warning log. -/
theorem finalize_logs_mem_not_found (r : AcceptSharesResult) (h : r.not_found ≠ []) :
    Effect.logWarning ("Unable to resolve " ++ toString r.not_found.length ++
      " RAM Shares: " ++ toString r.not_found) ∈ finalize_logs r := by
  have hp : r.not_found.length > 0 := List.length_pos.mpr h
  simp [finalize_logs, hp]

/-- The mutating effects of the finalize body are exactly: create the local
database, accept the share arns, mark the record imported — in this order. -/
theorem finalize_body_filter_mutating (c : DataMeshConsumer) (env : MeshEnv)
    (sid : String) (sub : Subscription) :
    (finalize_body c env sid sub).1.filter Effect.isMutating =
      [Effect.getOrCreateDatabase sub.databaseName
        ("Database to contain objects from Producer Database " ++
          sub.ownerPrincipal ++ "." ++ sub.databaseName) c.data_mesh_account_id,
       Effect.acceptShares (sub.ramShares.map fun kv => kv.2.arn),
       Effect.markImported sid] := by
  have hlogs : (finalize_logs (accept_lf_resource_shares env
      (sub.ramShares.map fun kv => kv.2.arn))).filter Effect.isMutating = [] :=
    List.filter_eq_nil_iff.mpr (by
      intro e he
      simp [finalize_logs_not_mutating _ e he])
  simp [finalize_body, List.filter_append, hlogs, Effect.isMutating]

/-- Every effect recorded by the visibility loop is a table describe. -/
theorem validate_tables_all_describe (env : MeshEnv) (db : String) (ts : List String) :
    ∀ e ∈ (validate_tables env db ts).1, e.isDescribeTable = true := by
  induction ts with
  | nil => simp [validate_tables]
  | cons t rest ih =>
    intro e he
    cases hv : env.visibleTables db t with
    | true =>
      simp only [validate_tables, describe_table, hv, if_pos] at he
      rcases List.mem_cons.mp he with rfl | htail
      · rfl
      · exact ih e htail
    | false =>
      simp only [validate_tables, describe_table, hv] at he
      rcases List.mem_cons.mp he with rfl | htail
      · rfl
      · cases htail

/-- A table describe is not a subscription-record creation. -/
theorem describe_not_create (e : Effect) (h : e.isDescribeTable = true) :
    e.isCreateSubscriptionRequest = false := by
  cases e <;> simp_all [Effect.isDescribeTable, Effect.isCreateSubscriptionRequest]

/-- When some requested table is invisible, the visibility loop surfaces an
`ObjectNotVisible` error for an invisible table. -/
theorem validate_tables_error (env : MeshEnv) (db : String) (ts : List String)
    (h : ∃ t ∈ ts, env.visibleTables db t = false) :
    ∃ t, env.visibleTables db t = false ∧
      (validate_tables env db ts).2 = Except.error (MeshError.ObjectNotVisible db t) := by
  induction ts with
  | nil => simp at h
  | cons a rest ih =>
    cases hv : env.visibleTables db a with
    | false =>
      exact ⟨a, hv, by simp [validate_tables, describe_table, hv]⟩
    | true =>
      rcases h with ⟨t, ht, htf⟩
      rcases List.mem_cons.mp ht with rfl | hrest
      · rw [hv] at htf; cases htf
      · rcases ih ⟨t, hrest, htf⟩ with ⟨u, hu, heq⟩
        exact ⟨u, hu, by simp [validate_tables, describe_table, hv, heq]⟩

/-- When every requested table is visible, the visibility loop succeeds. -/
theorem validate_tables_ok (env : MeshEnv) (db : String) (ts : List String)
    (h : ∀ t ∈ ts, env.visibleTables db t = true) :
    (validate_tables env db ts).2 = Except.ok () := by
  induction ts with
  | nil => rfl
  | cons a rest ih =>
    have ha := h a (List.mem_cons_self a rest)
    have hrest := ih fun t ht => h t (List.mem_cons_of_mem a ht)
    simp [validate_tables, describe_table, ha, hrest]

/-! Claim theorems. -/

/-- C1, counterexample: the claim says that finalizing a record not in
`ACTIVE` status fails with `PreconditionFailed` and performs zero mutating
calls. On the concrete store holding `sub0`, a record in `REQUESTED` status,
`finalize_subscription` instead succeeds (returning `ok none`, not the
`PreconditionFailed` error) and performs three mutating calls. -/
theorem C1_counterexample :
    (env0.getSubscription "S1").map Subscription.status = some Status.REQUESTED ∧
    (finalize_subscription c0 env0 "S1").2 = Except.ok none ∧
    (finalize_subscription c0 env0 "S1").2 ≠ Except.error MeshError.PreconditionFailed ∧
    (finalize_subscription c0 env0 "S1").1.countP Effect.isMutating = 3 := by
  have h2 : (finalize_subscription c0 env0 "S1").2 = Except.ok none := rfl
  refine ⟨rfl, h2, ?_, rfl⟩
  rw [h2]
  exact fun hc => Except.noConfusion hc

/-- C1, amended: `finalize_subscription` never checks the record status; on
a record in any non-`ACTIVE` status it does not fail with
`PreconditionFailed` but proceeds exactly as on an `ACTIVE` record,
performing the three mutating calls: create the local database, accept the
share arns, mark the record imported. -/
theorem C1_finalize_no_precondition_check (c : DataMeshConsumer) (env : MeshEnv)
    (sid : String) (sub : Subscription)
    (h : env.getSubscription sid = some sub) (_hs : sub.status ≠ Status.ACTIVE) :
    (finalize_subscription c env sid).2 ≠ Except.error MeshError.PreconditionFailed ∧
    (finalize_subscription c env sid).1.countP Effect.isMutating = 3 ∧
    Effect.getOrCreateDatabase sub.databaseName
      ("Database to contain objects from Producer Database " ++
        sub.ownerPrincipal ++ "." ++ sub.databaseName) c.data_mesh_account_id
      ∈ (finalize_subscription c env sid).1 ∧
    Effect.markImported sid ∈ (finalize_subscription c env sid).1 := by
  have h2 : (finalize_subscription c env sid).2 = Except.ok none := by
    simp [finalize_subscription, h, finalize_body]
  have hfilter := finalize_body_filter_mutating c env sid sub
  refine ⟨by rw [h2]; exact fun hc => Except.noConfusion hc, ?_, ?_, ?_⟩
  · have : (finalize_subscription c env sid).1 =
        Effect.readSubscription sid :: (finalize_body c env sid sub).1 := by
      simp [finalize_subscription, h]
    rw [this, List.countP_cons, List.countP_eq_length_filter, hfilter]
    simp [Effect.isMutating]
  · simp [finalize_subscription, h, finalize_body]
  · simp [finalize_subscription, h, finalize_body]

/-- C1, witness for the amended theorem at the concrete `REQUESTED` record
`sub0`. -/
theorem C1_finalize_no_precondition_check_witness :
    (env0.getSubscription "S1" = some sub0 ∧ sub0.status ≠ Status.ACTIVE) ∧
    (finalize_subscription c0 env0 "S1").2 ≠ Except.error MeshError.PreconditionFailed ∧
    (finalize_subscription c0 env0 "S1").1.countP Effect.isMutating = 3 := by
  have hmain := C1_finalize_no_precondition_check c0 env0 "S1" sub0 (by rfl) (by decide)
  exact ⟨⟨rfl, by decide⟩, hmain.1, hmain.2.1⟩

/-- C2, counterexample: the claim says a successful `Finalize` returns the
reconciliation counts. On the concrete store holding `sub0` with one pending
share, the spec-side counts are one accepted, zero already active, zero
unresolved, but the embedded source call returns `ok none` (the Python
function is annotated `-> None` and has no return statement), not the
counts. -/
theorem C2_counterexample :
    (finalize_subscription c0 env0 "S1").2 = Except.ok none ∧
    finalize_counts_spec env0 sub0 =
      { accepted := 1, alreadyActive := 0, unresolved := 0 } ∧
    (finalize_subscription c0 env0 "S1").2 ≠
      Except.ok (some (finalize_counts_spec env0 sub0)) := by
  have h2 : (finalize_subscription c0 env0 "S1").2 = Except.ok none := rfl
  refine ⟨h2, rfl, ?_⟩
  rw [h2]
  intro hc
  exact Option.noConfusion (Except.ok.inj hc)

/-- C2, amended: a successful `finalize_subscription` computes the
reconciliation partition and reports each nonzero count through a log
message, but returns `None` to the caller; the counts are not returned. -/
theorem C2_counts_logged_not_returned (c : DataMeshConsumer) (env : MeshEnv)
    (sid : String) (sub : Subscription)
    (h : env.getSubscription sid = some sub) :
    (finalize_subscription c env sid).2 = Except.ok none ∧
    (let r := accept_lf_resource_shares env (sub.ramShares.map fun kv => kv.2.arn)
     (r.accepted ≠ [] →
        Effect.logInfo ("Accepted " ++ toString r.accepted.length ++
          " RAM Shares: " ++ toString r.accepted) ∈ (finalize_subscription c env sid).1) ∧
     (r.active ≠ [] →
        Effect.logInfo (toString r.active.length ++ " RAM Shares already in Active state")
          ∈ (finalize_subscription c env sid).1) ∧
     (r.not_found ≠ [] →
        Effect.logWarning ("Unable to resolve " ++ toString r.not_found.length ++
          " RAM Shares: " ++ toString r.not_found) ∈ (finalize_subscription c env sid).1)) := by
  have htrace : (finalize_subscription c env sid).1 =
      Effect.readSubscription sid :: (finalize_body c env sid sub).1 := by
    simp [finalize_subscription, h]
  have hmemlog : ∀ e ∈ finalize_logs (accept_lf_resource_shares env
      (sub.ramShares.map fun kv => kv.2.arn)), e ∈ (finalize_subscription c env sid).1 := by
    intro e he
    rw [htrace]
    simp only [finalize_body, List.mem_cons, List.mem_append]
    tauto
  refine ⟨by simp [finalize_subscription, h, finalize_body], ?_, ?_, ?_⟩
  · intro hne
    exact hmemlog _ (finalize_logs_mem_accepted _ hne)
  · intro hne
    exact hmemlog _ (finalize_logs_mem_active _ hne)
  · intro hne
    exact hmemlog _ (finalize_logs_mem_not_found _ hne)

/-- C2, witness for the amended theorem at the concrete record `sub0`, whose
one share is accepted and therefore logged. -/
theorem C2_counts_logged_not_returned_witness :
    env0.getSubscription "S1" = some sub0 ∧
    (finalize_subscription c0 env0 "S1").2 = Except.ok none ∧
    Effect.logInfo ("Accepted " ++ toString (1 : Nat) ++
        " RAM Shares: " ++ toString ["arn1"]) ∈ (finalize_subscription c0 env0 "S1").1 := by
  have hmain := C2_counts_logged_not_returned c0 env0 "S1" sub0 (by rfl)
  refine ⟨rfl, hmain.1, ?_⟩
  have hlog := hmain.2.1 (by decide)
  exact hlog

/-- C6: in every execution of `finalize_subscription` on an existing record,
the mark-imported store write occurs strictly after the share-acceptance
call in the effect trace; and the call completes (returning `ok`) with no
condition on the unresolved set — in particular the record is marked
imported even when some shares could not be located. -/
theorem C6_imported_after_acceptance (c : DataMeshConsumer) (env : MeshEnv)
    (sid : String) (sub : Subscription)
    (h : env.getSubscription sid = some sub) :
    (∃ pre post,
      (finalize_subscription c env sid).1 = pre ++ Effect.markImported sid :: post ∧
      Effect.acceptShares (sub.ramShares.map fun kv => kv.2.arn) ∈ pre) ∧
    (finalize_subscription c env sid).2 = Except.ok none := by
  constructor
  · refine ⟨Effect.readSubscription sid ::
      ([Effect.getOrCreateDatabase sub.databaseName
          ("Database to contain objects from Producer Database " ++
            sub.ownerPrincipal ++ "." ++ sub.databaseName) c.data_mesh_account_id,
        Effect.acceptShares (sub.ramShares.map fun kv => kv.2.arn)] ++
        finalize_logs (accept_lf_resource_shares env
          (sub.ramShares.map fun kv => kv.2.arn))),
      [Effect.logInfo "Subscription Import Complete"], ?_, by simp⟩
    simp [finalize_subscription, h, finalize_body]
  · simp [finalize_subscription, h, finalize_body]

/-- C6, witness at the concrete record `sub2`, whose only share cannot be
located: the unresolved set is nonempty, yet the record is still marked
imported after the acceptance call. -/
theorem C6_imported_after_acceptance_witness :
    env2.getSubscription "S9" = some sub2 ∧
    (accept_lf_resource_shares env2 (sub2.ramShares.map fun kv => kv.2.arn)).not_found =
      ["arnX"] ∧
    (∃ pre post,
      (finalize_subscription c0 env2 "S9").1 = pre ++ Effect.markImported "S9" :: post ∧
      Effect.acceptShares (sub2.ramShares.map fun kv => kv.2.arn) ∈ pre) ∧
    (finalize_subscription c0 env2 "S9").2 = Except.ok none := by
  have hmain := C6_imported_after_acceptance c0 env2 "S9" sub2 (by rfl)
  exact ⟨rfl, by decide, hmain.1, hmain.2⟩

/-- C9: `finalize_subscription` never branches on the record status. For any
record the store returns, it succeeds, and its mutating calls are exactly:
create (or find) the local database, attempt acceptance of exactly the arn
entries of the `ramShares` mapping (an empty attempt list when the mapping
is empty), and mark the record imported. Moreover the body is invariant
under changing the record status alone. -/
theorem C9_finalize_ignores_status (c : DataMeshConsumer) (env : MeshEnv)
    (sid : String) (sub : Subscription)
    (h : env.getSubscription sid = some sub) :
    (finalize_subscription c env sid).2 = Except.ok none ∧
    (finalize_subscription c env sid).1.filter Effect.isMutating =
      [Effect.getOrCreateDatabase sub.databaseName
        ("Database to contain objects from Producer Database " ++
          sub.ownerPrincipal ++ "." ++ sub.databaseName) c.data_mesh_account_id,
       Effect.acceptShares (sub.ramShares.map fun kv => kv.2.arn),
       Effect.markImported sid] ∧
    (∀ s : Status, finalize_body c env sid { sub with status := s } =
      finalize_body c env sid sub) := by
  refine ⟨by simp [finalize_subscription, h, finalize_body], ?_, ?_⟩
  · have htrace : (finalize_subscription c env sid).1 =
        Effect.readSubscription sid :: (finalize_body c env sid sub).1 := by
      simp [finalize_subscription, h]
    rw [htrace, List.filter_cons_of_neg (by simp [Effect.isMutating])]
    exact finalize_body_filter_mutating c env sid sub
  · intro s
    cases sub
    rfl

/-- C9, witness at the concrete record `sub0` (status `REQUESTED`): the call
succeeds, the mutating calls are exactly the three listed, and rewriting the
status to any other value leaves the body unchanged. -/
theorem C9_finalize_ignores_status_witness :
    env0.getSubscription "S1" = some sub0 ∧
    (finalize_subscription c0 env0 "S1").2 = Except.ok none ∧
    finalize_body c0 env0 "S1" { sub0 with status := Status.DELETED } =
      finalize_body c0 env0 "S1" sub0 := by
  have hmain := C9_finalize_ignores_status c0 env0 "S1" sub0 (by rfl)
  exact ⟨rfl, hmain.1, hmain.2.2 Status.DELETED⟩

/-- C10: the local database reference created by `finalize_subscription` has
exactly the subscription record database name (the derived name is the
identity on the shared database name), and its source account is the mesh
account id fixed at broker construction; and every database-creation effect
in the trace has these fields. -/
theorem C10_local_database_name_and_source (c : DataMeshConsumer) (env : MeshEnv)
    (sid : String) (sub : Subscription)
    (h : env.getSubscription sid = some sub) :
    Effect.getOrCreateDatabase sub.databaseName
      ("Database to contain objects from Producer Database " ++
        sub.ownerPrincipal ++ "." ++ sub.databaseName) c.data_mesh_account_id
      ∈ (finalize_subscription c env sid).1 ∧
    (∀ name desc src, Effect.getOrCreateDatabase name desc src ∈
        (finalize_subscription c env sid).1 →
      name = sub.databaseName ∧ src = c.data_mesh_account_id) := by
  constructor
  · simp [finalize_subscription, h, finalize_body]
  · intro name desc src hmem
    have hmut : (Effect.getOrCreateDatabase name desc src).isMutating = true := rfl
    have htrace : (finalize_subscription c env sid).1 =
        Effect.readSubscription sid :: (finalize_body c env sid sub).1 := by
      simp [finalize_subscription, h]
    rw [htrace] at hmem
    rcases List.mem_cons.mp hmem with h1 | h1
    · simp at h1
    · have h2 : Effect.getOrCreateDatabase name desc src ∈
          (finalize_body c env sid sub).1.filter Effect.isMutating :=
        List.mem_filter.mpr ⟨h1, hmut⟩
      rw [finalize_body_filter_mutating] at h2
      rcases List.mem_cons.mp h2 with h3 | h3
      · obtain ⟨e1, e2, e3⟩ := Effect.getOrCreateDatabase.inj h3
        exact ⟨e1, e3⟩
      · rcases List.mem_cons.mp h3 with h4 | h4
        · simp at h4
        · rcases List.mem_cons.mp h4 with h5 | h5
          · simp at h5
          · simp at h5

/-- C10, witness at the concrete record `sub0`: the database effect carries
the name `sales` and the mesh account `333333333333`. -/
theorem C10_local_database_name_and_source_witness :
    env0.getSubscription "S1" = some sub0 ∧
    Effect.getOrCreateDatabase "sales"
      ("Database to contain objects from Producer Database " ++
        "111111111111" ++ "." ++ "sales") "333333333333"
      ∈ (finalize_subscription c0 env0 "S1").1 := by
  have hmain := C10_local_database_name_and_source c0 env0 "S1" sub0 (by rfl)
  exact ⟨rfl, hmain.1⟩

/-- C3: when some requested table fails the visibility check, the whole
request aborts with `ObjectNotVisible` and the trace contains zero
subscription-record creations — no partial subscription. -/
theorem C3_invisible_table_aborts (c : DataMeshConsumer) (env : MeshEnv)
    (owner_account_id database_name : String) (tables request_permissions : List String)
    (h : ∃ t ∈ tables, env.visibleTables database_name t = false) :
    (∃ t, env.visibleTables database_name t = false ∧
      (request_access_to_product c env owner_account_id database_name tables
        request_permissions).2 =
        Except.error (MeshError.ObjectNotVisible database_name t)) ∧
    (request_access_to_product c env owner_account_id database_name tables
      request_permissions).1.countP Effect.isCreateSubscriptionRequest = 0 := by
  obtain ⟨t, htf, heq⟩ := validate_tables_error env database_name tables h
  have hcheck : (validate_tables env database_name tables).1.countP
      Effect.isCreateSubscriptionRequest = 0 :=
    List.countP_eq_zero.mpr (by
      intro e he
      simp [describe_not_create e (validate_tables_all_describe env database_name tables e he)])
  constructor
  · exact ⟨t, htf, by simp [request_access_to_product, heq]⟩
  · have htr : (request_access_to_product c env owner_account_id database_name tables
        request_permissions).1 =
        (if tables = ([] : List String) then
          [Effect.stdout "Creating Database level Access Request"] else []) ++
        (validate_tables env database_name tables).1 := by
      simp [request_access_to_product, heq]
    rw [htr, List.countP_append, hcheck]
    split <;> rfl

/-- C3, witness: requesting `orders` (visible) and `missing` (invisible)
aborts with `ObjectNotVisible` and creates no record. -/
theorem C3_invisible_table_aborts_witness :
    (∃ t ∈ ["orders", "missing"], env0.visibleTables "sales" t = false) ∧
    (∃ t, env0.visibleTables "sales" t = false ∧
      (request_access_to_product c0 env0 "111111111111" "sales" ["orders", "missing"]
        ["SELECT"]).2 = Except.error (MeshError.ObjectNotVisible "sales" t)) ∧
    (request_access_to_product c0 env0 "111111111111" "sales" ["orders", "missing"]
      ["SELECT"]).1.countP Effect.isCreateSubscriptionRequest = 0 := by
  have hmain := C3_invisible_table_aborts c0 env0 "111111111111" "sales"
    ["orders", "missing"] ["SELECT"] (by decide)
  exact ⟨by decide, hmain.1, hmain.2⟩

/-- C4: when every requested table is visible, the request succeeds, exactly
one subscription record is created, its status is `REQUESTED`, and its
subscriber principal is the account identity resolved from the broker
session at construction — `request_access_to_product` takes no principal
argument at all, so no input principal can ever be used. -/
theorem C4_request_creates_one_requested_record (c : DataMeshConsumer) (env : MeshEnv)
    (owner_account_id database_name : String) (tables request_permissions : List String)
    (h : ∀ t ∈ tables, env.visibleTables database_name t = true) :
    (request_access_to_product c env owner_account_id database_name tables
       request_permissions).2 =
      Except.ok (create_subscription_request env owner_account_id database_name tables
        c.current_account request_permissions) ∧
    (create_subscription_request env owner_account_id database_name tables
      c.current_account request_permissions).status = Status.REQUESTED ∧
    (create_subscription_request env owner_account_id database_name tables
      c.current_account request_permissions).subscriberPrincipal = c.current_account ∧
    (request_access_to_product c env owner_account_id database_name tables
      request_permissions).1.filter Effect.isCreateSubscriptionRequest =
      [Effect.createSubscriptionRequest owner_account_id database_name tables
        c.current_account request_permissions true] := by
  have hok := validate_tables_ok env database_name tables h
  have hcheckfil : (validate_tables env database_name tables).1.filter
      Effect.isCreateSubscriptionRequest = [] :=
    List.filter_eq_nil_iff.mpr (by
      intro e he
      simp [describe_not_create e (validate_tables_all_describe env database_name tables e he)])
  refine ⟨by simp [request_access_to_product, hok], rfl, rfl, ?_⟩
  have htr : (request_access_to_product c env owner_account_id database_name tables
      request_permissions).1 =
      ((if tables = ([] : List String) then
         [Effect.stdout "Creating Database level Access Request"] else []) ++
       (validate_tables env database_name tables).1) ++
      [Effect.createSubscriptionRequest owner_account_id database_name tables
        c.current_account request_permissions true] := by
    simp [request_access_to_product, hok]
  rw [htr, List.filter_append, List.filter_append, hcheckfil]
  split <;> simp [Effect.isCreateSubscriptionRequest]

/-- C4, witness: requesting the visible table `orders` creates one record in
`REQUESTED` status whose subscriber principal is the account of the broker
session, `222222222222`. -/
theorem C4_request_creates_one_requested_record_witness :
    (∀ t ∈ ["orders"], env0.visibleTables "sales" t = true) ∧
    (request_access_to_product c0 env0 "111111111111" "sales" ["orders"] ["SELECT"]).2 =
      Except.ok (create_subscription_request env0 "111111111111" "sales" ["orders"]
        "222222222222" ["SELECT"]) ∧
    (create_subscription_request env0 "111111111111" "sales" ["orders"] "222222222222"
      ["SELECT"]).status = Status.REQUESTED ∧
    (create_subscription_request env0 "111111111111" "sales" ["orders"] "222222222222"
      ["SELECT"]).subscriberPrincipal = "222222222222" := by
  have hmain := C4_request_creates_one_requested_record c0 env0 "111111111111" "sales"
    ["orders"] ["SELECT"] (by decide)
  exact ⟨by decide, hmain.1, hmain.2.1, hmain.2.2.1⟩

/-- C5: deleting a subscription whose subscriber principal differs from the
calling account fails with the permission error raised at source line 189,
after only the record read — the trace contains zero mutating effects, so no
shares are left and no store write occurs. -/
theorem C5_delete_by_other_principal_denied (c : DataMeshConsumer) (env : MeshEnv)
    (subscription_id reason : String) (sub : Subscription)
    (h : env.getSubscription subscription_id = some sub)
    (hp : sub.subscriberPrincipal ≠ c.current_account) :
    delete_subscription c env subscription_id reason =
      ([Effect.readSubscription subscription_id],
       Except.error (MeshError.PermissionDenied
         "Cannot delete permissions which you do not own")) ∧
    (delete_subscription c env subscription_id reason).1.countP Effect.isMutating = 0 := by
  have heq : delete_subscription c env subscription_id reason =
      ([Effect.readSubscription subscription_id],
       Except.error (MeshError.PermissionDenied
         "Cannot delete permissions which you do not own")) := by
    simp [delete_subscription, h, hp]
  exact ⟨heq, by rw [heq]; rfl⟩

/-- C5, witness: account `999999999999` attempting to delete the
subscription of `222222222222` is denied with no mutating effect. -/
theorem C5_delete_by_other_principal_denied_witness :
    (env0.getSubscription "S1" = some sub0 ∧
      sub0.subscriberPrincipal ≠ c1.current_account) ∧
    delete_subscription c1 env0 "S1" "cleanup" =
      ([Effect.readSubscription "S1"],
       Except.error (MeshError.PermissionDenied
         "Cannot delete permissions which you do not own")) := by
  have hmain := C5_delete_by_other_principal_denied c1 env0 "S1" "cleanup" sub0
    (by rfl) (by decide)
  exact ⟨⟨rfl, by decide⟩, hmain.1⟩

/-- C7: `list_product_access` returns exactly the stored subscriptions whose
status is `ACTIVE` and whose subscriber principal is the calling account; no
other status and no other principal appears. -/
theorem C7_list_access_exactly_active_own (c : DataMeshConsumer) (env : MeshEnv)
    (s : Subscription) :
    s ∈ list_product_access c env ↔
      s ∈ env.allSubscriptions ∧ s.status = Status.ACTIVE ∧
        s.subscriberPrincipal = c.current_account := by
  unfold list_product_access list_subscriptions
  rw [List.mem_filter]
  simp only [decide_eq_true_eq]
  tauto

/-- C8: requesting access with an empty table list performs zero table
visibility checks, prints the database-level message, and still creates
exactly the database-level subscription request. -/
theorem C8_empty_table_list (c : DataMeshConsumer) (env : MeshEnv)
    (owner_account_id database_name : String) (request_permissions : List String) :
    request_access_to_product c env owner_account_id database_name [] request_permissions =
      ([Effect.stdout "Creating Database level Access Request",
        Effect.createSubscriptionRequest owner_account_id database_name []
          c.current_account request_permissions true],
       Except.ok (create_subscription_request env owner_account_id database_name []
          c.current_account request_permissions)) ∧
    (request_access_to_product c env owner_account_id database_name []
      request_permissions).1.countP Effect.isDescribeTable = 0 :=
  ⟨rfl, rfl⟩

end DataMesh
